import Mathlib

/-!
Verification development for the rvthtool bank-aware disc image engine
(librvth).  The definitions below are shallow embeddings of the C/C++
functions in src/librvth: machine integers are modelled as Nat with an
explicit `% 2^32` wherever 32-bit wraparound matters, sectors are byte
lists, files are LBA-indexed sector stores, and the copy loops are
structural recursions mirroring the for loops of the source.
-/

set_option maxHeartbeats 1000000

set_option maxRecDepth 16384

/-- Size of one LBA in bytes. -/
def LBA_SIZE : Nat := 512

/-- The 32-bit modulus used for uint32_t arithmetic. -/
def U32 : Nat := 2 ^ 32

-- POSIX errno values (Linux).
def errnoNoEnt : Nat := 2
def errnoEio : Nat := 5
def errnoNoMem : Nat := 12
def errnoInval : Nat := 22
def errnoExist : Nat := 17
def errnoNoSpc : Nat := 28
def errnoRofs : Nat := 30
def errnoRange : Nat := 34
def errnoCanceled : Nat := 125

-- RvtH_Errors domain codes, positive, in the order pinned by the
-- description table errtbl in rvth.c (rvth_error).
def RVTH_ERROR_NHCD_TABLE_MAGIC : Int := 2
def RVTH_ERROR_BANK_UNKNOWN : Int := 4
def RVTH_ERROR_BANK_EMPTY : Int := 5
def RVTH_ERROR_BANK_DL_2 : Int := 6
def RVTH_ERROR_NOT_HDD_IMAGE : Int := 10
def RVTH_ERROR_NO_GAME_PARTITION : Int := 11
def RVTH_ERROR_INVALID_BANK_COUNT : Int := 12
def RVTH_ERROR_IS_HDD_IMAGE : Int := 13
def RVTH_ERROR_IMAGE_TOO_BIG : Int := 15
def RVTH_ERROR_BANK_NOT_EMPTY_OR_DELETED : Int := 16
def RVTH_ERROR_IMPORT_DL_EXT_NO_BANK1 : Int := 23
def RVTH_ERROR_IMPORT_DL_LAST_BANK : Int := 24
def RVTH_ERROR_BANK2DL_NOT_EMPTY_OR_DELETED : Int := 25

/-- Bank types of RvtH_BankEntry (rvth.h / nhcd parsing in rvth.c). -/
inductive RvtH_BankType where
  | Empty
  | Unknown
  | GCN
  | Wii_SL
  | Wii_DL
  | Wii_DL_Bank2
deriving DecidableEq, Repr

/-- Crypto types of RvtH_BankEntry (NoCrypto stands for RVTH_CryptoType_None). -/
inductive RvtH_CryptoType where
  | Unknown
  | NoCrypto
  | Debug
  | Retail
  | Korean
deriving DecidableEq, Repr

/-- Signature verification status (RVTH_SigStatus). -/
inductive RvtH_SigStatus where
  | Unknown
  | OK
  | Invalid
  | Fakesigned
deriving DecidableEq, Repr

/-!
## Plain reader (reader_plain.cpp and reader_plain.c)

A plain reader is a window `[lba_start, lba_start + lba_len)` into a
RefFile.  The model records, for a read or write request, whether I/O is
performed and at which byte offset: `none` means the request failed with
no I/O on the file; `some (off, n)` means a seek to byte offset `off`
followed by a transfer of `n` LBAs.  All u32 sums wrap modulo `2^32`,
exactly as the uint32_t arithmetic of the source does.
-/

structure PlainReader where
  lba_start : Nat
  lba_len : Nat
deriving DecidableEq, Repr

/-- reader_plain_read of reader_plain.cpp: bounds check (u32 arithmetic),
then seek to LBA_TO_BYTES(lba_start) and read lba_len LBAs. -/
def reader_plain_read_cpp (r : PlainReader) (lba_rel n : Nat) : Option (Nat × Nat) :=
  let lba_abs := (lba_rel + r.lba_start) % U32
  if (lba_abs + n) % U32 > (r.lba_start + r.lba_len) % U32 then
    none
  else
    some (lba_abs * LBA_SIZE, n)

/-- reader_plain_write of reader_plain.cpp: same bounds check as the read
path, then seek and write. -/
def reader_plain_write_cpp (r : PlainReader) (lba_rel n : Nat) : Option (Nat × Nat) :=
  let lba_abs := (lba_rel + r.lba_start) % U32
  if (lba_abs + n) % U32 > (r.lba_start + r.lba_len) % U32 then
    none
  else
    some (lba_abs * LBA_SIZE, n)

/-- reader_plain_read of reader_plain.c: no bounds check at all (the
source carries a TODO "Verify LBA bounds"); it always seeks to
LBA_TO_BYTES(reader lba_start + lba_start) and reads lba_len LBAs. -/
def reader_plain_read_c (r : PlainReader) (lba_rel n : Nat) : Option (Nat × Nat) :=
  some (((r.lba_start + lba_rel) % U32) * LBA_SIZE, n)

/-- reader_plain_write of reader_plain.c: no bounds check, always seeks
and writes. -/
def reader_plain_write_c (r : PlainReader) (lba_rel n : Nat) : Option (Nat × Nat) :=
  some (((r.lba_start + lba_rel) % U32) * LBA_SIZE, n)

/-!
## Destination length for unencrypted-to-encrypted extract (rvth_extract)

From rvth_extract in rvth_extract.cpp, the unenc_to_enc branch:
  lba_tmp = game_pte lba_len - BYTES_TO_LBA(0x8000);        (u32)
  gcm_lba_len = lba_tmp / 3968 * 4096;
  if (lba_tmp % 3968 != 0) gcm_lba_len += 4096;
  gcm_lba_len += BYTES_TO_LBA(0x20000) + game_pte lba_start;
with BYTES_TO_LBA(x) = x / 512, so BYTES_TO_LBA(0x8000) = 64 and
BYTES_TO_LBA(0x20000) = 256.
-/
def rvth_extract_unenc2enc_lba_len (game_lba_len game_lba_start : Nat) : Nat :=
  let lba_tmp := (game_lba_len + (U32 - 64)) % U32
  let a := (lba_tmp / 3968 * 4096) % U32
  let b := if lba_tmp % 3968 ≠ 0 then (a + 4096) % U32 else a
  (b + 256 + game_lba_start) % U32

/-- Modelled from the spec: the destination-length formula as the spec
states it, `data_out = ceil(raw/3968)*4096` with `raw = lba_len - 64`,
total `data_out + 256 + lba_start` (all quantities in LBAs). -/
def spec_unenc2enc_lba_len (game_lba_len game_lba_start : Nat) : Nat :=
  ((game_lba_len - 64 + 3967) / 3968) * 4096 + 256 + game_lba_start

/-!
## HDD open, bank-table header checks (rvth_open_hdd in rvth.c)

After reading the 512-byte header at the bank-table LBA, the code
checks the magic and the bank count.  `magic` is the big-endian value
of the first four header bytes; "NHCD" is 0x4E484344.  `errno_cur`
models the calling-context errno value at the bank-count check (the
source reads errno there and substitutes errnoNoMem when it is zero).
The result is the negative POSIX or positive domain code on failure,
or the accepted bank count.
-/
def NHCD_BANKTABLE_MAGIC : Nat := 0x4E484344

def rvth_open_hdd_header_check (magic bank_count errno_cur : Nat) : Except Int Nat :=
  if magic ≠ NHCD_BANKTABLE_MAGIC then
    Except.error RVTH_ERROR_NHCD_TABLE_MAGIC
  else if bank_count < 8 ∨ bank_count > 32 then
    Except.error (-(Int.ofNat (if errno_cur = 0 then errnoNoMem else errno_cur)))
  else
    Except.ok bank_count

/-!
## Post-import policy (rvth_import in rvth_extract.cpp)

After a successful rvth_copy_to_hdd, the imported bank entry decides
between automatic re-encryption to Debug and stamping the imported
marker (rvth_recrypt_id).
-/

structure PostImportEntry where
  type : RvtH_BankType
  crypto_type : RvtH_CryptoType
  ticket_sig_status : RvtH_SigStatus
  tmd_sig_status : RvtH_SigStatus
deriving DecidableEq, Repr

inductive ImportPostAction where
  | recryptToDebug
  | stampImportedId
deriving DecidableEq, Repr

/-- The condition and branch taken by rvth_import after a successful copy:
Wii image (SL or DL) with Retail or Korean crypto, or a ticket or TMD
signature that is not OK, is re-encrypted to Debug; anything else gets
the imported marker. -/
def rvth_import_post (e : PostImportEntry) : ImportPostAction :=
  if (e.type = RvtH_BankType.Wii_SL ∨ e.type = RvtH_BankType.Wii_DL) ∧
     (e.crypto_type = RvtH_CryptoType.Retail ∨
      e.crypto_type = RvtH_CryptoType.Korean ∨
      e.ticket_sig_status ≠ RvtH_SigStatus.OK ∨
      e.tmd_sig_status ≠ RvtH_SigStatus.OK) then
    ImportPostAction.recryptToDebug
  else
    ImportPostAction.stampImportedId

/-!
## Sectors and the destination standalone image file

A sector is the byte list of one LBA (length 512 for well-formed data).
The destination of an extract is modelled as an LBA-indexed sector
store plus the number of LBAs the file currently spans.  Creating the
file and calling makeSparse(LBA_TO_BYTES(lba_len)) yields a file of
`lba_len` LBAs whose holes read back as zero; a reader write extends
the span when it ends past the current end.
-/

abbrev Sector : Type := List Nat

/-- The all-zero sector (512 zero bytes). -/
def zeroSector : Sector := List.replicate 512 0

structure GcmFile where
  data : Nat → Sector
  lbaLen : Nat

/-- The freshly created destination file after makeSparse: every LBA
reads back as zero and the file spans `lbaLen` LBAs. -/
def startGcm (lbaLen : Nat) : GcmFile :=
  { data := fun _ => zeroSector, lbaLen := lbaLen }

/-- A positioned write of `n` sectors taken from buffer offset `bufOff`
to LBA `lba` of the file. -/
def writeLbas (f : GcmFile) (buf : Nat → Sector) (bufOff lba n : Nat) : GcmFile :=
  { data := fun i => if lba ≤ i ∧ i < lba + n then buf (bufOff + (i - lba)) else f.data i,
    lbaLen := max f.lbaLen (lba + n) }

/-- rvth_is_block_empty: a byte window is empty when every byte is zero. -/
def rvth_is_block_empty (bytes : List Nat) : Bool :=
  bytes.all (fun b => b == 0)

/-- The bytes of `cnt` consecutive sectors of a buffer starting at
sector offset `off` (the byte window passed to rvth_is_block_empty). -/
def blockBytes (buf : Nat → Sector) (off cnt : Nat) : List Nat :=
  (List.range cnt).flatMap (fun k => buf (off + k))

/-!
## rvth_copy_to_gcm (rvth_extract.cpp)

The copy loops are embedded as structural recursions.  One 1 MiB chunk
is 2048 LBAs; the sub-block scan of a chunk walks blocks of `g` sectors
(`g = 8`, i.e. 4096 bytes, in the main loop; `g = 1`, i.e. 512 bytes,
in the remainder loop), writing each non-empty block at its true LBA
and tracking lba_nonsparse.  The loop state is the destination file
paired with lba_nonsparse.
-/

/-- One iteration of the sub-block scan: block `j` covers buffer sectors
`[j*g, j*g + g)`; a non-empty block is written at LBA `lc + j*g` and
lba_nonsparse becomes the last LBA of the write. -/
def blockStep (g : Nat) (buf : Nat → Sector) (lc j : Nat) (st : GcmFile × Nat) :
    GcmFile × Nat :=
  let off := j * g
  if rvth_is_block_empty (blockBytes buf off g) then st
  else (writeLbas st.1 buf off (lc + off) g, lc + off + (g - 1))

/-- The sub-block scan: `m` remaining blocks, next block index `j`. -/
def scanBlocksAux (g : Nat) (buf : Nat → Sector) (lc : Nat) :
    Nat → Nat → GcmFile × Nat → GcmFile × Nat
  | 0, _, st => st
  | m + 1, j, st => scanBlocksAux g buf lc m (j + 1) (blockStep g buf lc j st)

/-- Magic constants of the GCN disc header, as byte sequences: magic_wii
(0x5D1C9EA3 big-endian at byte offset 0x18) and magic_gcn (0xC2339F3D
big-endian at byte offset 0x1C). -/
def WII_MAGIC_BYTES : List Nat := [0x5D, 0x1C, 0x9E, 0xA3]

def GCN_MAGIC_BYTES : List Nat := [0xC2, 0x33, 0x9F, 0x3D]

/-- The magic check of the first chunk of rvth_copy_to_gcm: true when
the sector carries the Wii magic or the GCN magic. -/
def hdrHasMagic (s : Sector) : Bool :=
  ((s.drop 0x18).take 4 == WII_MAGIC_BYTES) || ((s.drop 0x1C).take 4 == GCN_MAGIC_BYTES)

/-- Progress-callback check: with no callback processing continues;
with a callback the returned Bool decides (argument: lba_processed). -/
def cbCheck (cb : Option (Nat → Bool)) (lba_processed : Nat) : Bool :=
  cb.elim true (fun f => f lba_processed)

/-- One main-loop iteration (chunk `c`, 2048 LBAs): check the callback,
read the chunk from the source, overlay the cached disc header on the
very first chunk when both magic values are missing, then scan 256
blocks of 4096 bytes.  The Bool is the cancelled flag: once set, the
remaining iterations do nothing (goto end). -/
def chunkStep (cb : Option (Nat → Bool)) (src : Nat → Sector) (discHeader : Sector)
    (c : Nat) (acc : (GcmFile × Nat) × Bool) : (GcmFile × Nat) × Bool :=
  if acc.2 then acc
  else if cbCheck cb (c * 2048) = false then (acc.1, true)
  else
    let lc := c * 2048
    let bufRaw := fun k => src (lc + k)
    let buf := if c == 0 && !hdrHasMagic (bufRaw 0) then
                 (fun k => if k == 0 then discHeader else bufRaw k)
               else bufRaw
    (scanBlocksAux 8 buf lc 256 0 acc.1, false)

/-- The main 1 MiB loop: `n` remaining chunks, next chunk index `c`. -/
def mainLoopAux (cb : Option (Nat → Bool)) (src : Nat → Sector) (discHeader : Sector) :
    Nat → Nat → (GcmFile × Nat) × Bool → (GcmFile × Nat) × Bool
  | 0, _, acc => acc
  | n + 1, c, acc => mainLoopAux cb src discHeader n (c + 1) (chunkStep cb src discHeader c acc)

/-- Result of a copy: the return value (0 success, positive RvtH error,
negative POSIX), the errno value the function sets at the end (0 when
untouched), and the destination file. -/
structure ExtractResult where
  ret : Int
  err : Nat
  dest : GcmFile

/-- The remainder loop of rvth_copy_to_gcm, faithful to the source
slip: the byte bound sz_left is computed with BYTES_TO_LBA (divide)
where the loop needs LBA_TO_BYTES (multiply), so only
ceil((lba_left / 512) / 512) sub-blocks of the remainder are scanned. -/
def tailScan (src : Nat → Sector) (lba_buf_max lba_copy_len : Nat)
    (st : GcmFile × Nat) : GcmFile × Nat :=
  let lba_left := lba_copy_len - lba_buf_max
  let sz_left := lba_left / 512
  scanBlocksAux 1 (fun k => src (lba_buf_max + k)) lba_buf_max
    ((sz_left + 511) / 512) 0 st

/-- The final fix-up of rvth_copy_to_gcm: when lba_nonsparse did not end
on the last LBA, write one zeroed sector at lba_copy_len - 1 so the
file length is exact. -/
def finishGcm (lba_copy_len : Nat) (st : GcmFile × Nat) : GcmFile :=
  if st.2 ≠ lba_copy_len - 1 then
    writeLbas st.1 (fun _ => zeroSector) 0 (lba_copy_len - 1) 1
  else st.1

/-- The body of rvth_copy_to_gcm after the bank-type switch: makeSparse
(the file spans lba_len LBAs, holes read back zero), the main 1 MiB
loop with optional disc-header restoration, the remainder loop, the
final callback, and the final fix-up write. -/
def rvth_copy_to_gcm_body (cb : Option (Nat → Bool)) (src : Nat → Sector)
    (discHeader : Sector) (lba_len : Nat) : ExtractResult :=
  let lba_copy_len := lba_len
  let nChunks := lba_len / 2048
  let lba_buf_max := nChunks * 2048
  let m := mainLoopAux cb src discHeader nChunks 0 ((startGcm lba_len, 0), false)
  if m.2 then { ret := 0, err := errnoCanceled, dest := m.1.1 }
  else
    let t :=
      if lba_buf_max < lba_copy_len then
        if cbCheck cb lba_buf_max = false then (m.1, true)
        else (tailScan src lba_buf_max lba_copy_len m.1, false)
      else (m.1, false)
    if t.2 then { ret := 0, err := errnoCanceled, dest := t.1.1 }
    else if cbCheck cb lba_copy_len = false then
      { ret := 0, err := errnoCanceled, dest := t.1.1 }
    else
      { ret := 0, err := 0, dest := finishGcm lba_copy_len t.1 }

/-- rvth_copy_to_gcm: the bank-type switch in front of the copy body.
Only GCN, Wii_SL and Wii_DL banks can be extracted. -/
def rvth_copy_to_gcm (cb : Option (Nat → Bool)) (srcType : RvtH_BankType)
    (src : Nat → Sector) (discHeader : Sector) (lba_len : Nat) : ExtractResult :=
  match srcType with
  | RvtH_BankType.GCN => rvth_copy_to_gcm_body cb src discHeader lba_len
  | RvtH_BankType.Wii_SL => rvth_copy_to_gcm_body cb src discHeader lba_len
  | RvtH_BankType.Wii_DL => rvth_copy_to_gcm_body cb src discHeader lba_len
  | RvtH_BankType.Unknown => { ret := RVTH_ERROR_BANK_UNKNOWN, err := errnoEio, dest := startGcm lba_len }
  | RvtH_BankType.Empty => { ret := RVTH_ERROR_BANK_EMPTY, err := errnoNoEnt, dest := startGcm lba_len }
  | RvtH_BankType.Wii_DL_Bank2 => { ret := RVTH_ERROR_BANK_DL_2, err := errnoEio, dest := startGcm lba_len }

/-!
## rvth_copy_to_hdd preconditions (rvth_extract.cpp)

The precondition phase of rvth_copy_to_hdd, up to the final
empty-or-deleted check on the destination bank: `some code` is the
error value the function returns at that point; `none` means all
checks pass and copying proceeds.  The bank-size caps
NHCD_BANK_SIZE_LBA and NHCD_EXTBANKTABLE_BANK_1_SIZE_LBA live in
nhcd_structs.h and are taken as parameters `bankSize` and `extBank1`.
-/

structure ImportBankInfo where
  type : RvtH_BankType
  is_deleted : Bool
deriving DecidableEq, Repr

/-- A destination bank usable for import: Empty or deleted. -/
def bankFree (e : ImportBankInfo) : Bool :=
  e.type == RvtH_BankType.Empty || e.is_deleted

/-- The Dual-Layer and size checks of rvth_copy_to_hdd (the block
starting at the comment "Source image length cannot be larger than a
single bank"). -/
def rvth_copy_to_hdd_dl_check (bankSize extBank1 : Nat) (bank_count_dest bank_dest : Nat)
    (srcType : RvtH_BankType) (src_lba_len : Nat)
    (destEntries : Nat → ImportBankInfo) : Option Int :=
  if srcType = RvtH_BankType.Wii_DL then
    if bank_count_dest > 8 ∧ bank_dest = 0 then
      some RVTH_ERROR_IMPORT_DL_EXT_NO_BANK1
    else if bank_dest = bank_count_dest - 1 then
      some RVTH_ERROR_IMPORT_DL_LAST_BANK
    else if bankFree (destEntries bank_dest) then
      if bankFree (destEntries (bank_dest + 1)) then
        if src_lba_len > bankSize * 2 then some RVTH_ERROR_IMAGE_TOO_BIG else none
      else some RVTH_ERROR_BANK2DL_NOT_EMPTY_OR_DELETED
    else some RVTH_ERROR_BANK_NOT_EMPTY_OR_DELETED
  else if src_lba_len > bankSize then
    some RVTH_ERROR_IMAGE_TOO_BIG
  else if bank_dest = 0 ∧ bank_count_dest > 8 ∧ src_lba_len > extBank1 then
    some RVTH_ERROR_IMAGE_TOO_BIG
  else
    none

/-- The precondition phase of rvth_copy_to_hdd: argument range checks,
destination must be an HDD, source-bank-type switch, the DL and size
checks, and the final empty-or-deleted check of the destination bank. -/
def rvth_copy_to_hdd_check (bankSize extBank1 : Nat) (destIsHdd : Bool)
    (bank_count_src bank_count_dest bank_src bank_dest : Nat)
    (srcType : RvtH_BankType) (src_lba_len : Nat)
    (destEntries : Nat → ImportBankInfo) : Option Int :=
  if bank_src ≥ bank_count_src ∨ bank_dest ≥ bank_count_dest then
    some (-(Int.ofNat errnoRange))
  else if !destIsHdd then
    some RVTH_ERROR_NOT_HDD_IMAGE
  else if srcType = RvtH_BankType.Unknown then
    some RVTH_ERROR_BANK_UNKNOWN
  else if srcType = RvtH_BankType.Empty then
    some RVTH_ERROR_BANK_EMPTY
  else if srcType = RvtH_BankType.Wii_DL_Bank2 then
    some RVTH_ERROR_BANK_DL_2
  else
    match rvth_copy_to_hdd_dl_check bankSize extBank1 bank_count_dest bank_dest
        srcType src_lba_len destEntries with
    | some e => some e
    | none =>
      if bankFree (destEntries bank_dest) then none
      else some RVTH_ERROR_BANK_NOT_EMPTY_OR_DELETED

/-!
## Bank-entry list built by rvth_open_hdd (rvth.c)

The open loop walks the `bank_count` slots.  A slot whose predecessor
ended up with type Wii_DL is marked Wii_DL_Bank2 with timestamp -1 and
otherwise all-zero metadata (the entry array comes from calloc), and
its on-disk table entry is not even read; every other slot gets the
entry computed from its table entry and rvth_init_BankEntry, which the
model abstracts as a per-slot function `f` (bank_init.c is outside the
sources; per spec 4.3/4.4 `f` covers the type switch, the default-LBA
substitution and the disc-header identification). -/

structure HddEntryMeta where
  type : RvtH_BankType
  is_deleted : Bool
  lba_start : Nat
  lba_len : Nat
  timestamp : Int
  region_code : Nat
deriving DecidableEq, Repr

/-- The skip-path entry for the second bank of a dual-layer image:
type Wii_DL_Bank2, timestamp -1, all other metadata zero. -/
def dlBank2Entry : HddEntryMeta :=
  { type := RvtH_BankType.Wii_DL_Bank2, is_deleted := false,
    lba_start := 0, lba_len := 0, timestamp := -1, region_code := 0 }

/-- The slot loop of rvth_open_hdd: `n` remaining slots, `i` the next
slot index, `prev` the type stored in the previous slot (none before
slot 0). -/
def openEntriesAux (f : Nat → HddEntryMeta) :
    Nat → Nat → Option RvtH_BankType → List HddEntryMeta
  | 0, _, _ => []
  | n + 1, i, prev =>
    let e := if prev = some RvtH_BankType.Wii_DL then dlBank2Entry else f i
    e :: openEntriesAux f n (i + 1) (some e.type)

/-- The entry list produced by a successful rvth_open_hdd with
`count` banks. -/
def rvth_open_hdd_entries (f : Nat → HddEntryMeta) (count : Nat) : List HddEntryMeta :=
  openEntriesAux f count 0 none

/-!
## rvth_get_BankEntry (rvth.c)

The accessor returns the bank entry at the index, or NULL with
`*pErr = -EINVAL` when the object is NULL or the index is at or past
bank_count.  The model keeps the entries as a list and returns the
pair (entry-or-none, pErr-value-or-untouched). -/

structure ModelRvtH (α : Type) where
  bank_count : Nat
  entries : List α

def rvth_get_BankEntry {α : Type} (rvth : Option (ModelRvtH α)) (bank : Nat) :
    Option α × Option Int :=
  match rvth with
  | none => (none, some (-(Int.ofNat errnoInval)))
  | some r =>
    if bank ≥ r.bank_count then (none, some (-(Int.ofNat errnoInval)))
    else (r.entries.get? bank, none)

/-!
## Concrete sectors used by the concrete evaluations
-/

/-- A sector carrying the GCN magic at byte offset 0x1C (a valid GCN
disc header start), zero elsewhere. -/
def gcnSector : Sector :=
  List.replicate 28 0 ++ GCN_MAGIC_BYTES ++ List.replicate 480 0

/-- A non-zero sector without either magic (first byte 1). -/
def oneSector : Sector := 1 :: List.replicate 511 0

/-- A source whose every LBA is the all-zero sector. -/
def zeroSrc : Nat → Sector := fun _ => zeroSector

/-!
## Claim theorems: reader bounds (C2)
-/

/-- Claim C2: evaluation of the plain-reader models at out-of-range
requests.  The C reader (reader_plain.c) performs the positioned I/O
with no bounds check at all; the C++ reader (reader_plain.cpp) checks
with wrapping 32-bit sums, so a request with lba_rel + n past 2^32
slips through and I/O is performed.  Both contradict the claim that
every request with lba_rel + n > lba_len fails with no I/O. -/
theorem reader_plain_bounds_violation :
    (reader_plain_read_c ⟨0, 10⟩ 10 1 = some (5120, 1) ∧ 10 + 1 > 10) ∧
    (reader_plain_write_c ⟨0, 10⟩ 10 1 = some (5120, 1)) ∧
    (reader_plain_read_cpp ⟨0, 10⟩ (2 ^ 32 - 1) 2 = some ((2 ^ 32 - 1) * 512, 2) ∧
      2 ^ 32 - 1 + 2 > 10) ∧
    (reader_plain_read_cpp ⟨0, 10⟩ 3 2 = some (3 * 512, 2)) :=
  ⟨⟨rfl, by norm_num⟩, rfl, ⟨rfl, by norm_num⟩, rfl⟩

/-!
## Claim theorems: unencrypted-to-encrypted size formula (C4)
-/

/-- Claim C4: the destination length computed by rvth_extract for an
unencrypted-to-encrypted conversion equals the formula of the spec,
ceil((lba_len - 0x8000/512)/3968)*4096 + 0x20000/512 + lba_start, for
all partition geometries in range (no u32 wraparound). -/
theorem rvth_extract_unenc2enc_matches_spec (len start : Nat)
    (h64 : 64 ≤ len) (hlen : len ≤ 2 ^ 24) (hstart : start ≤ 2 ^ 24) :
    rvth_extract_unenc2enc_lba_len len start = spec_unenc2enc_lba_len len start := by
  have h1 : (len + (2 ^ 32 - 64)) % 2 ^ 32 = len - 64 := by omega
  simp only [rvth_extract_unenc2enc_lba_len, spec_unenc2enc_lba_len, U32, h1]
  have hq : (len - 64) / 3968 ≤ 2 ^ 24 / 3968 := Nat.div_le_div_right (by omega)
  have hA : (len - 64) / 3968 * 4096 ≤ 17317888 :=
    le_trans (Nat.mul_le_mul_right 4096 hq) (by norm_num)
  have ha : (len - 64) / 3968 * 4096 % 2 ^ 32 = (len - 64) / 3968 * 4096 :=
    Nat.mod_eq_of_lt (by omega)
  rw [ha]
  split
  · rw [Nat.mod_eq_of_lt (by omega), Nat.mod_eq_of_lt (by omega)]
    omega
  · rw [Nat.mod_eq_of_lt (by omega)]
    omega

/-- Witness for C4 at a concrete geometry. -/
theorem rvth_extract_unenc2enc_matches_spec_witness :
    64 ≤ 10000 ∧ 10000 ≤ 2 ^ 24 ∧ 20 ≤ 2 ^ 24 ∧
    rvth_extract_unenc2enc_lba_len 10000 20 = spec_unenc2enc_lba_len 10000 20 :=
  ⟨by norm_num, by norm_num, by norm_num,
   rvth_extract_unenc2enc_matches_spec 10000 20 (by norm_num) (by norm_num) (by norm_num)⟩

/-!
## Claim theorems: HDD open header checks (C5)
-/

/-- Claim C5: evaluation of the header checks of rvth_open_hdd.  A wrong
magic fails with the positive domain code RVTH_ERROR_NHCD_TABLE_MAGIC as
claimed, but an out-of-range bank count (7 or 33) fails with the negative
POSIX value -ENOMEM = -12 taken from the copied allocation-failure
handler, not with the positive domain code RVTH_ERROR_INVALID_BANK_COUNT
the claim names. -/
theorem rvth_open_hdd_header_check_eval :
    rvth_open_hdd_header_check 0x12345678 8 0 = Except.error RVTH_ERROR_NHCD_TABLE_MAGIC ∧
    rvth_open_hdd_header_check NHCD_BANKTABLE_MAGIC 7 0 = Except.error (-(12 : Int)) ∧
    rvth_open_hdd_header_check NHCD_BANKTABLE_MAGIC 33 0 = Except.error (-(12 : Int)) ∧
    rvth_open_hdd_header_check NHCD_BANKTABLE_MAGIC 8 0 = Except.ok 8 ∧
    (-(12 : Int)) ≠ RVTH_ERROR_INVALID_BANK_COUNT ∧ (-(12 : Int)) < 0 :=
  ⟨rfl, rfl, rfl, rfl, by decide, by decide⟩

/-!
## Claim theorems: post-import policy (C7)
-/

/-- Modelled from the spec: the post-import condition in the words of
the spec, "the imported disc is Wii and encryption is retail/Korean or
signatures are invalid". -/
def spec_needs_debug_recrypt (e : PostImportEntry) : Prop :=
  (e.type = RvtH_BankType.Wii_SL ∨ e.type = RvtH_BankType.Wii_DL) ∧
  (e.crypto_type = RvtH_CryptoType.Retail ∨
   e.crypto_type = RvtH_CryptoType.Korean ∨
   e.ticket_sig_status ≠ RvtH_SigStatus.OK ∨
   e.tmd_sig_status ≠ RvtH_SigStatus.OK)

instance (e : PostImportEntry) : Decidable (spec_needs_debug_recrypt e) := by
  unfold spec_needs_debug_recrypt
  infer_instance

/-- Claim C7: after a successful import, the bank is re-encrypted to
Debug exactly when it is a Wii image with Retail or Korean crypto or a
bad ticket or TMD signature, and gets the imported marker exactly
otherwise. -/
theorem rvth_import_post_policy (e : PostImportEntry) :
    (rvth_import_post e = ImportPostAction.recryptToDebug ↔ spec_needs_debug_recrypt e) ∧
    (rvth_import_post e = ImportPostAction.stampImportedId ↔ ¬ spec_needs_debug_recrypt e) := by
  unfold rvth_import_post spec_needs_debug_recrypt
  split
  · rename_i h
    refine ⟨⟨fun _ => h, fun _ => rfl⟩, ⟨fun hc => ?_, fun hn => absurd h hn⟩⟩
    exact absurd hc (by decide)
  · rename_i h
    refine ⟨⟨fun hc => ?_, fun hc => absurd hc h⟩, ⟨fun _ => h, fun _ => rfl⟩⟩
    exact absurd hc (by decide)

/-!
## Claim theorems: bank accessor bounds (C10)
-/

/-- Claim C10: rvth_get_BankEntry returns NULL with the negative error
-EINVAL for any index at or past bank_count and never indexes the
entries list out of range; for an in-range index it returns the entry
at that index and leaves pErr untouched. -/
theorem rvth_get_BankEntry_spec {α : Type} (r : ModelRvtH α)
    (h : r.entries.length = r.bank_count) (bank : Nat) :
    (r.bank_count ≤ bank →
      rvth_get_BankEntry (some r) bank = (none, some (-(Int.ofNat errnoInval))) ∧
      -(Int.ofNat errnoInval) < 0) ∧
    (∀ hb : bank < r.bank_count,
      rvth_get_BankEntry (some r) bank =
        (some (r.entries.get ⟨bank, by rw [h]; exact hb⟩), none)) := by
  constructor
  · intro hge
    refine ⟨?_, by decide⟩
    simp only [rvth_get_BankEntry]
    rw [if_pos hge]
  · intro hb
    simp only [rvth_get_BankEntry]
    rw [if_neg (by omega)]
    rw [List.get?_eq_get (by rw [h]; exact hb)]

/-- Witness for C10 on a concrete two-bank object and the out-of-range
index 5 as well as the in-range index 1. -/
theorem rvth_get_BankEntry_spec_witness :
    ([10, 20].length = 2) ∧
    (rvth_get_BankEntry (some (⟨2, [10, 20]⟩ : ModelRvtH Nat)) 5 =
      (none, some (-(Int.ofNat errnoInval))) ∧ -(Int.ofNat errnoInval) < 0) ∧
    rvth_get_BankEntry (some (⟨2, [10, 20]⟩ : ModelRvtH Nat)) 1 =
      (some (([10, 20] : List Nat).get ⟨1, by norm_num⟩), none) := by
  refine ⟨rfl, ?_, ?_⟩
  · exact (rvth_get_BankEntry_spec (⟨2, [10, 20]⟩ : ModelRvtH Nat) rfl 5).1 (by norm_num)
  · exact (rvth_get_BankEntry_spec (⟨2, [10, 20]⟩ : ModelRvtH Nat) rfl 1).2 (by norm_num)

/-!
## Claim theorems: Dual-Layer import rules (C6)
-/

/-- Claim C6 (amended): the Dual-Layer rules of rvth_copy_to_hdd in the
order the code applies them.  The extended-table bank-0 rule and the
last-bank rule hold exactly as claimed; the second-bank rule presupposes
that the destination bank itself is Empty or deleted (otherwise the
earlier BANK_NOT_EMPTY_OR_DELETED check fires), and the two-bank size
rule presupposes all earlier checks pass. -/
theorem rvth_copy_to_hdd_dl_rules
    (bankSize extBank1 : Nat) (bcs bcd bs bd src_len : Nat)
    (entries : Nat → ImportBankInfo)
    (hbs : bs < bcs) (hbd : bd < bcd) (hbc : 8 ≤ bcd) :
    (8 < bcd → bd = 0 →
      rvth_copy_to_hdd_check bankSize extBank1 true bcs bcd bs bd
          RvtH_BankType.Wii_DL src_len entries =
        some RVTH_ERROR_IMPORT_DL_EXT_NO_BANK1) ∧
    (bd = bcd - 1 →
      rvth_copy_to_hdd_check bankSize extBank1 true bcs bcd bs bd
          RvtH_BankType.Wii_DL src_len entries =
        some RVTH_ERROR_IMPORT_DL_LAST_BANK) ∧
    (¬(8 < bcd ∧ bd = 0) → bd ≠ bcd - 1 → bankFree (entries bd) = true →
      bankFree (entries (bd + 1)) = false →
      rvth_copy_to_hdd_check bankSize extBank1 true bcs bcd bs bd
          RvtH_BankType.Wii_DL src_len entries =
        some RVTH_ERROR_BANK2DL_NOT_EMPTY_OR_DELETED) ∧
    (¬(8 < bcd ∧ bd = 0) → bd ≠ bcd - 1 → bankFree (entries bd) = true →
      bankFree (entries (bd + 1)) = true → bankSize * 2 < src_len →
      rvth_copy_to_hdd_check bankSize extBank1 true bcs bcd bs bd
          RvtH_BankType.Wii_DL src_len entries =
        some RVTH_ERROR_IMAGE_TOO_BIG) := by
  have hrange : ¬(bs ≥ bcs ∨ bd ≥ bcd) := by omega
  refine ⟨fun hext h0 => ?_, fun hlast => ?_, fun hne hnl hfree hnext => ?_,
    fun hne hnl hfree hnext hbig => ?_⟩ <;>
    simp only [rvth_copy_to_hdd_check, rvth_copy_to_hdd_dl_check, hrange, if_false,
      Bool.not_true, if_true, if_pos, reduceCtorEq, reduceIte]
  · rw [if_pos ⟨hext, h0⟩]
  · rw [if_neg (by omega), if_pos hlast]
  · rw [if_neg (by omega), if_neg (by omega), if_pos hfree, if_neg (by simp [hnext])]
  · rw [if_neg (by omega), if_neg (by omega), if_pos hfree, if_pos hnext,
      if_pos hbig]

/-- An occupied (GCN, not deleted) destination slot map. -/
def occupiedBanks : Nat → ImportBankInfo :=
  fun _ => { type := RvtH_BankType.GCN, is_deleted := false }

/-- Claim C6 counterexample: importing a Dual-Layer source into bank 0
of a standard 8-bank table whose next bank (bank 1) is occupied does
not fail with BANK2DL_NOT_EMPTY_OR_DELETED as the claim states for an
occupied following bank: the destination bank itself is also occupied
and the code returns BANK_NOT_EMPTY_OR_DELETED first. -/
theorem rvth_copy_to_hdd_dl_counterexample :
    bankFree (occupiedBanks 1) = false ∧
    rvth_copy_to_hdd_check 9193984 9064704 true 1 8 0 0
        RvtH_BankType.Wii_DL 5 occupiedBanks =
      some RVTH_ERROR_BANK_NOT_EMPTY_OR_DELETED ∧
    RVTH_ERROR_BANK_NOT_EMPTY_OR_DELETED ≠ RVTH_ERROR_BANK2DL_NOT_EMPTY_OR_DELETED := by
  refine ⟨rfl, ?_, by decide⟩
  rfl

/-- An all-Empty destination slot map. -/
def emptyBanks : Nat → ImportBankInfo :=
  fun _ => { type := RvtH_BankType.Empty, is_deleted := false }

/-- Witness for the C6 rules on a concrete extended table (9 banks):
bank 0 is refused for a Dual-Layer import with IMPORT_DL_EXT_NO_BANK1,
and the last bank (8) is refused with IMPORT_DL_LAST_BANK. -/
theorem rvth_copy_to_hdd_dl_rules_witness :
    (0 < 1 ∧ 0 < 9 ∧ 8 ≤ 9) ∧
    rvth_copy_to_hdd_check 9193984 9064704 true 1 9 0 0
        RvtH_BankType.Wii_DL 5 emptyBanks =
      some RVTH_ERROR_IMPORT_DL_EXT_NO_BANK1 ∧
    rvth_copy_to_hdd_check 9193984 9064704 true 1 9 0 8
        RvtH_BankType.Wii_DL 5 emptyBanks =
      some RVTH_ERROR_IMPORT_DL_LAST_BANK := by
  refine ⟨⟨by norm_num, by norm_num, by norm_num⟩, ?_, ?_⟩
  · exact (rvth_copy_to_hdd_dl_rules 9193984 9064704 1 9 0 0 5 emptyBanks
      (by norm_num) (by norm_num) (by norm_num)).1 (by norm_num) rfl
  · exact (rvth_copy_to_hdd_dl_rules 9193984 9064704 1 9 0 8 5 emptyBanks
      (by norm_num) (by norm_num) (by norm_num)).2.1 (by norm_num)

/-!
## Claim theorems: WiiDualLayerBank2 follows WiiDualLayer (C9)
-/

/-- Loop lemma for the open slot walk: whenever slot `i` of the
produced list holds a Wii_DL entry and slot `i + 1` exists, slot
`i + 1` is the zero-metadata Wii_DL_Bank2 entry. -/
theorem openEntriesAux_dl_bank2 (f : Nat → HddEntryMeta) :
    ∀ (n i0 : Nat) (prev : Option RvtH_BankType) (i : Nat) (e : HddEntryMeta),
      i + 1 < n →
      (openEntriesAux f n i0 prev).get? i = some e →
      e.type = RvtH_BankType.Wii_DL →
      (openEntriesAux f n i0 prev).get? (i + 1) = some dlBank2Entry := by
  intro n
  induction n with
  | zero => intro i0 prev i e hlt; omega
  | succ m ih =>
    intro i0 prev i e hlt hget hdl
    rw [openEntriesAux] at hget ⊢
    cases i with
    | zero =>
      simp only [List.get?] at hget
      cases hget
      cases m with
      | zero => omega
      | succ m2 =>
        rw [openEntriesAux]
        simp only [List.get?]
        rw [if_pos]
        simp [hdl]
    | succ k =>
      simp only [List.get?] at hget ⊢
      exact ih (i0 + 1) _ k e (by omega) hget hdl

/-- Claim C9 (amended): in the bank-entry list produced by a successful
rvth_open_hdd, every Wii_DL entry that is not in the last slot is
immediately followed by the Wii_DL_Bank2 entry with zero metadata and
timestamp -1.  (A Wii_DL in the very last slot has no following
entry; the code leaves that case unhandled.) -/
theorem rvth_open_hdd_dl_bank2_follows (f : Nat → HddEntryMeta) (count i : Nat)
    (e : HddEntryMeta) (hi : i + 1 < count)
    (hget : (rvth_open_hdd_entries f count).get? i = some e)
    (hdl : e.type = RvtH_BankType.Wii_DL) :
    (rvth_open_hdd_entries f count).get? (i + 1) = some dlBank2Entry :=
  openEntriesAux_dl_bank2 f count 0 none i e hi hget hdl

/-- A table whose slot 0 carries a Wii_DL image and is otherwise Empty. -/
def dlAtSlot0 : Nat → HddEntryMeta := fun i =>
  if i = 0 then
    { type := RvtH_BankType.Wii_DL, is_deleted := false,
      lba_start := 0x60, lba_len := 0x8C4A00, timestamp := 0, region_code := 1 }
  else
    { type := RvtH_BankType.Empty, is_deleted := false,
      lba_start := 0, lba_len := 0, timestamp := -1, region_code := 0 }

/-- Witness for C9 on a concrete 8-bank open with a Wii_DL in slot 0:
slot 1 is the zero Wii_DL_Bank2 entry. -/
theorem rvth_open_hdd_dl_bank2_follows_witness :
    (0 + 1 < 8) ∧
    ((rvth_open_hdd_entries dlAtSlot0 8).get? 0 = some (dlAtSlot0 0)) ∧
    ((dlAtSlot0 0).type = RvtH_BankType.Wii_DL) ∧
    (rvth_open_hdd_entries dlAtSlot0 8).get? 1 = some dlBank2Entry :=
  ⟨by norm_num, by decide, by decide,
   rvth_open_hdd_dl_bank2_follows dlAtSlot0 8 0 (dlAtSlot0 0) (by norm_num)
     (by decide) (by decide)⟩

/-- A table whose last slot (7 of 8) carries a Wii_DL image. -/
def dlAtSlot7 : Nat → HddEntryMeta := fun i =>
  if i = 7 then
    { type := RvtH_BankType.Wii_DL, is_deleted := false,
      lba_start := 0x60, lba_len := 0x8C4A00, timestamp := 0, region_code := 1 }
  else
    { type := RvtH_BankType.Empty, is_deleted := false,
      lba_start := 0, lba_len := 0, timestamp := -1, region_code := 0 }

/-- Claim C9 counterexample: an 8-bank table whose last slot holds a
Wii_DL image opens to a state whose final entry has type Wii_DL with
no following entry at all, so the claimed invariant (every Wii_DL
entry is immediately followed by a Wii_DL_Bank2 entry) fails for the
last slot. -/
theorem rvth_open_hdd_dl_last_slot_counterexample :
    ((rvth_open_hdd_entries dlAtSlot7 8).get? 7).map HddEntryMeta.type =
      some RvtH_BankType.Wii_DL ∧
    (rvth_open_hdd_entries dlAtSlot7 8).get? 8 = none ∧
    (rvth_open_hdd_entries dlAtSlot7 8).length = 8 := by
  refine ⟨by decide, by decide, by decide⟩

/-!
## Copy-engine lemmas: writes at or past an LBA never change earlier LBAs
-/

theorem writeLbas_data_lt (f : GcmFile) (buf : Nat → Sector) (bufOff lba n i : Nat)
    (h : i < lba) : (writeLbas f buf bufOff lba n).data i = f.data i := by
  simp only [writeLbas]
  rw [if_neg (by omega)]

theorem blockStep_data_lt (g : Nat) (buf : Nat → Sector) (lc j : Nat)
    (st : GcmFile × Nat) (i : Nat) (h : i < lc + j * g) :
    (blockStep g buf lc j st).1.data i = st.1.data i := by
  simp only [blockStep]
  split
  · rfl
  · exact writeLbas_data_lt st.1 buf (j * g) (lc + j * g) g i h

theorem scanBlocksAux_data_lt (g : Nat) (buf : Nat → Sector) (lc : Nat) :
    ∀ (m j : Nat) (st : GcmFile × Nat) (i : Nat), i < lc + j * g →
      (scanBlocksAux g buf lc m j st).1.data i = st.1.data i := by
  intro m
  induction m with
  | zero => intro j st i _; rfl
  | succ m2 ih =>
    intro j st i h
    rw [scanBlocksAux]
    rw [ih (j + 1) (blockStep g buf lc j st) i (by rw [Nat.succ_mul]; omega)]
    exact blockStep_data_lt g buf lc j st i h

theorem chunkStep_data_lt (cb : Option (Nat → Bool)) (src : Nat → Sector)
    (hdr : Sector) (c : Nat) (acc : (GcmFile × Nat) × Bool) (i : Nat)
    (h : i < c * 2048) :
    (chunkStep cb src hdr c acc).1.1.data i = acc.1.1.data i := by
  simp only [chunkStep]
  split
  · rfl
  · split
    · rfl
    · exact scanBlocksAux_data_lt 8 _ (c * 2048) 256 0 acc.1 i (by omega)

theorem mainLoopAux_data_lt (cb : Option (Nat → Bool)) (src : Nat → Sector)
    (hdr : Sector) :
    ∀ (n c : Nat) (acc : (GcmFile × Nat) × Bool) (i : Nat), i < c * 2048 →
      (mainLoopAux cb src hdr n c acc).1.1.data i = acc.1.1.data i := by
  intro n
  induction n with
  | zero => intro c acc i _; rfl
  | succ n2 ih =>
    intro c acc i h
    rw [mainLoopAux]
    rw [ih (c + 1) (chunkStep cb src hdr c acc) i (by rw [Nat.succ_mul]; omega)]
    exact chunkStep_data_lt cb src hdr c acc i h

/-- With no callback, processing is never cancelled. -/
theorem chunkStep_none_flag (src : Nat → Sector) (hdr : Sector) (c : Nat)
    (acc : (GcmFile × Nat) × Bool) (h : acc.2 = false) :
    (chunkStep none src hdr c acc).2 = false := by
  simp only [chunkStep, h]
  rw [if_neg (by simp), if_neg (by simp [cbCheck])]

theorem mainLoopAux_none_flag (src : Nat → Sector) (hdr : Sector) :
    ∀ (n c : Nat) (acc : (GcmFile × Nat) × Bool), acc.2 = false →
      (mainLoopAux none src hdr n c acc).2 = false := by
  intro n
  induction n with
  | zero => intro c acc h; exact h
  | succ n2 ih =>
    intro c acc h
    rw [mainLoopAux]
    exact ih (c + 1) _ (chunkStep_none_flag src hdr c acc h)

/-- Every byte of every sector of an empty block is zero; in particular
a length-512 sector of an empty block is the zero sector. -/
theorem sector_of_empty_block (buf : Nat → Sector) (off cnt : Nat)
    (hempty : rvth_is_block_empty (blockBytes buf off cnt) = true)
    (k : Nat) (hk : k < cnt) (hlen : (buf (off + k)).length = 512) :
    buf (off + k) = zeroSector := by
  have hz : ∀ b ∈ buf (off + k), b = 0 := by
    intro b hb
    have hmem : b ∈ blockBytes buf off cnt := by
      simp only [blockBytes, List.mem_flatMap]
      exact ⟨k, List.mem_range.mpr hk, hb⟩
    have := List.all_eq_true.mp hempty b hmem
    simpa using this
  exact List.eq_replicate_iff.mpr ⟨hlen, hz⟩

/-- The value of LBA 0 after the sub-block scan of the first chunk on a
fresh destination: the first buffer sector when block 0 of the buffer
is non-empty, the untouched zero sector otherwise. -/
theorem scan_chunk0_data0 (buf : Nat → Sector) (L : Nat) :
    (scanBlocksAux 8 buf 0 256 0 (startGcm L, 0)).1.data 0 =
      (if rvth_is_block_empty (blockBytes buf 0 8) then zeroSector else buf 0) := by
  rw [show (256 : Nat) = 255 + 1 from rfl, scanBlocksAux]
  rw [scanBlocksAux_data_lt 8 buf 0 255 1 _ 0 (by omega)]
  simp only [blockStep]
  norm_num
  split
  · rfl
  · simp [writeLbas, startGcm]

/-- LBA 0 after the first main-loop iteration on a flushed header: the
cached disc header is restored (or the block was entirely zero, in
which case the zero first sector equals the all-zero header). -/
theorem chunkStep_zero_data0 (src : Nat → Sector) (hdr : Sector) (L : Nat)
    (hhdr : hdr.length = 512) (hmag : hdrHasMagic (src 0) = false) :
    (chunkStep none src hdr 0 ((startGcm L, 0), false)).1.1.data 0 = hdr := by
  simp only [chunkStep, cbCheck, Option.elim]
  norm_num [hmag]
  rw [scan_chunk0_data0]
  split
  · rename_i hempty
    have h0 : ((fun k => if k == 0 then hdr else src k) : Nat → Sector) (0 + 0) = hdr := by
      norm_num
    have := sector_of_empty_block (fun k => if k == 0 then hdr else src k) 0 8
      hempty 0 (by norm_num) (by rw [h0]; exact hhdr)
    rw [h0] at this
    exact this.symm
  · norm_num

theorem tailScan_data_lt (src : Nat → Sector) (lba_buf_max lba_copy_len : Nat)
    (st : GcmFile × Nat) (i : Nat) (h : i < lba_buf_max) :
    (tailScan src lba_buf_max lba_copy_len st).1.data i = st.1.data i := by
  simp only [tailScan]
  exact scanBlocksAux_data_lt 1 _ lba_buf_max _ 0 st i (by omega)

theorem finishGcm_data_lt (lba_copy_len : Nat) (st : GcmFile × Nat) (i : Nat)
    (h : i < lba_copy_len - 1) :
    (finishGcm lba_copy_len st).data i = st.1.data i := by
  simp only [finishGcm]
  split
  · exact writeLbas_data_lt st.1 _ 0 (lba_copy_len - 1) 1 i h
  · rfl

/-!
## Claim theorems: disc-header restoration on extract (C8)
-/

/-- Claim C8 (amended): for every extract without cancellation whose
source covers at least one full 1 MiB chunk (lba_len at least 2048) and
whose first on-disk LBA lacks both the Wii and the GCN magic, LBA 0 of
the extracted file equals the cached disc header.  (For banks shorter
than one chunk the overlay code inside the main loop is never reached.) -/
theorem rvth_copy_to_gcm_header_restore (src : Nat → Sector) (hdr : Sector)
    (lba_len : Nat) (hhdr : hdr.length = 512) (hbig : 2048 ≤ lba_len)
    (hmag : hdrHasMagic (src 0) = false) :
    (rvth_copy_to_gcm_body none src hdr lba_len).dest.data 0 = hdr := by
  obtain ⟨k, hk⟩ : ∃ k, lba_len / 2048 = k + 1 := by
    have h1 : 1 ≤ lba_len / 2048 := (Nat.one_le_div_iff (by norm_num)).mpr hbig
    exact ⟨lba_len / 2048 - 1, by omega⟩
  have hpos : 0 < lba_len / 2048 * 2048 := by
    rw [hk, Nat.succ_mul]; omega
  have hm0 : (mainLoopAux none src hdr (lba_len / 2048) 0
      ((startGcm lba_len, 0), false)).1.1.data 0 = hdr := by
    rw [hk, mainLoopAux]
    rw [mainLoopAux_data_lt none src hdr k 1 _ 0 (by omega)]
    exact chunkStep_zero_data0 src hdr lba_len hhdr hmag
  have hm2 : (mainLoopAux none src hdr (lba_len / 2048) 0
      ((startGcm lba_len, 0), false)).2 = false :=
    mainLoopAux_none_flag src hdr _ 0 _ rfl
  simp only [rvth_copy_to_gcm_body, cbCheck, Option.elim]
  rw [if_neg (by simp [hm2])]
  by_cases hcase : lba_len / 2048 * 2048 < lba_len
  · rw [if_pos hcase]
    rw [if_neg (show ¬(true = false) from by simp)]
    rw [if_neg (show ¬((tailScan src (lba_len / 2048 * 2048) lba_len
      (mainLoopAux none src hdr (lba_len / 2048) 0
        ((startGcm lba_len, 0), false)).1, false).2 = true) from by simp)]
    rw [if_neg (show ¬(true = false) from by simp)]
    exact (finishGcm_data_lt _ _ 0 (by omega)).trans
      ((tailScan_data_lt _ _ _ _ 0 (by omega)).trans hm0)
  · rw [if_neg hcase]
    rw [if_neg (show ¬(((mainLoopAux none src hdr (lba_len / 2048) 0
        ((startGcm lba_len, 0), false)).1, false).2 = true) from by simp)]
    rw [if_neg (show ¬(true = false) from by simp)]
    exact (finishGcm_data_lt _ _ 0 (by omega)).trans hm0

/-- Witness for C8 on a concrete 2048-LBA extract of an all-zero source
(flushed header) with the GCN header cached: LBA 0 of the output is the
cached header. -/
theorem rvth_copy_to_gcm_header_restore_witness :
    (gcnSector.length = 512) ∧ (2048 ≤ 2048) ∧ (hdrHasMagic (zeroSrc 0) = false) ∧
    (rvth_copy_to_gcm_body none zeroSrc gcnSector 2048).dest.data 0 = gcnSector :=
  ⟨by decide, by norm_num, by decide,
   rvth_copy_to_gcm_header_restore zeroSrc gcnSector 2048 (by decide) (by norm_num)
     (by decide)⟩

/-- Claim C8 counterexample: a 512-LBA bank whose first sector is
non-zero and lacks both magic values extracts with its own first sector,
not the cached disc header: the overlay sits inside the 1 MiB main loop
and the remainder loop never applies it. -/
theorem rvth_copy_to_gcm_header_restore_counterexample :
    hdrHasMagic oneSector = false ∧
    (rvth_copy_to_gcm_body none (fun _ => oneSector) gcnSector 512).dest.data 0 = oneSector ∧
    oneSector ≠ gcnSector :=
  ⟨by decide, by decide, by decide⟩

/-!
## Claim theorems: extract faithfulness (C1)
-/

/-- Claim C1: evaluation of the extract of a 1-LBA GCN bank whose single
sector is a valid GCN header (non-zero).  The extract returns success,
yet LBA 0 of the destination stays zero: the remainder loop computes its
byte bound with BYTES_TO_LBA (lba_left / 512 = 0) instead of
LBA_TO_BYTES (lba_left * 512), so the data is never copied, violating
the claimed per-LBA equality with the source. -/
theorem rvth_copy_to_gcm_tail_bug :
    (rvth_copy_to_gcm none RvtH_BankType.GCN (fun _ => gcnSector) gcnSector 1).ret = 0 ∧
    (rvth_copy_to_gcm none RvtH_BankType.GCN (fun _ => gcnSector) gcnSector 1).dest.data 0 =
      zeroSector ∧
    gcnSector ≠ zeroSector ∧
    hdrHasMagic gcnSector = true :=
  ⟨rfl, by decide, by decide, by decide⟩

/-!
## Claim theorems: cancellation via the progress callback (C3)
-/

/-- Claim C3: evaluation of an extract whose callback refuses at the
first 1 MiB boundary.  No copying I/O is performed (the destination is
exactly the fresh makeSparse state) and errno is set to ECANCELED, but
the function returns 0 — success — because the cancel path never sets
the return value, so the failure the claim requires is not reported. -/
theorem rvth_copy_to_gcm_cancel_returns_success :
    (rvth_copy_to_gcm (some (fun _ => false)) RvtH_BankType.Wii_SL
        (fun _ => gcnSector) gcnSector 2048).ret = 0 ∧
    (rvth_copy_to_gcm (some (fun _ => false)) RvtH_BankType.Wii_SL
        (fun _ => gcnSector) gcnSector 2048).err = errnoCanceled ∧
    (rvth_copy_to_gcm (some (fun _ => false)) RvtH_BankType.Wii_SL
        (fun _ => gcnSector) gcnSector 2048).dest = startGcm 2048 ∧
    (0 : Int) ≠ -(Int.ofNat errnoCanceled) :=
  ⟨rfl, rfl, rfl, by decide⟩
